import Mathlib

/-!
Verification development for the IPMA weather chatbot (`app/main.py`).

The embedding models Python text as `List Char` (one element per Unicode
code point, exactly as Python strings index their code points).  Python's
`str.lower` is modelled on the character ranges that occur in the program
and its data (ASCII and the Latin-1 letters used by Portuguese).  JSON
scalar values that the program only carries around or stringifies are
modelled by `PyVal`.  The similarity score of `difflib.SequenceMatcher`
(a float in Python) is abstracted as a rational-valued parameter
`ratio : Str → Str → ℚ`, applied as `ratio candidate queryText` to match
`set_seq1(candidate)` / `set_seq2(word)` in `difflib.get_close_matches`;
that function, at `n=1`, is embedded faithfully on top of the parameter,
including its cutoff filter and its tie-breaking by lexicographically
larger candidate (Python compares `(score, candidate)` tuples).  The two
quick-ratio prefilters inside `get_close_matches` are upper bounds of
`ratio` and never change its result, so they are not modelled separately.

Network effects are modelled by explicit oracles: the four data fetches
and the narrative backend are fields of `Oracle`, and every HTTP request
a code path performs is counted in the `fetches` field of the produced
response.  `aiohttp` failures for the aggregator are modelled with
`Except` in `gather_data`; the chat handler itself is modelled on the
fetch-success path, with `Except` capturing the one exception it can
raise on its own (`IndexError` when indexing an empty forecast list).
-/

/-- Python strings, one entry per code point. -/
abbrev Str := List Char

/-- Python `str.lower` on one character, for the ASCII range and the
Latin-1 uppercase letters (U+00C0 to U+00DE except the multiplication
sign), which cover every character the program compares. -/
def pyCharLower (c : Char) : Char :=
  if 'A' ≤ c ∧ c ≤ 'Z' then Char.ofNat (c.toNat + 32)
  else if 0xC0 ≤ c.toNat ∧ c.toNat ≤ 0xDE ∧ c.toNat ≠ 0xD7 then Char.ofNat (c.toNat + 32)
  else c

/-- Python `str.lower`. -/
def pyLower (t : Str) : Str := t.map pyCharLower

/-- Python `str.isspace` restricted to the ASCII whitespace characters. -/
def pyIsSpace (c : Char) : Bool :=
  c = ' ' || c = '\t' || c = '\n' || c = '\x0d' || c = '\x0b' || c = '\x0c'

/-- Python `str.strip()`. -/
def pyStrip (t : Str) : Str :=
  ((t.dropWhile pyIsSpace).reverse.dropWhile pyIsSpace).reverse

/-- Does `hay` start with `needle`?  Helper for the substring test. -/
def startsWithL : Str → Str → Bool
  | [], _ => true
  | _ :: _, [] => false
  | a :: as, b :: bs => a = b && startsWithL as bs

/-- Python's substring test `needle in hay`. -/
def containsSub (needle : Str) : Str → Bool
  | [] => startsWithL needle []
  | c :: t => startsWithL needle (c :: t) || containsSub needle t

/-- A JSON scalar carried by the program: a string or an integer. -/
inductive PyVal
  | vStr (v : Str)
  | vInt (v : Int)
deriving DecidableEq

/-- Python `str(v)` on a `PyVal`. -/
def pyStr : PyVal → Str
  | .vStr v => v
  | .vInt n => if n < 0 then '-' :: Nat.toDigits 10 n.natAbs else Nat.toDigits 10 n.toNat

/-- One entry of the `distrits-islands.json` directory.  The JSON key of
the first field is `local`; that word is a Lean keyword, so the field is
called `localName` here. -/
structure Loc where
  localName : Str
  globalIdLocal : Int
  latitude : PyVal
  longitude : PyVal
deriving DecidableEq

/-- Python's `<` on strings: lexicographic comparison by code point. -/
def strLtB : Str → Str → Bool
  | [], [] => false
  | [], _ :: _ => true
  | _ :: _, [] => false
  | a :: as, b :: bs => if a < b then true else if a = b then strLtB as bs else false

/-- Python's `<` on `(score, string)` pairs, as compared inside
`heapq.nlargest` in `difflib.get_close_matches`. -/
def pairLtB (p q : ℚ × Str) : Bool :=
  if p.1 < q.1 then true else if p.1 = q.1 then strLtB p.2 q.2 else false

/-- The larger of two `(score, string)` pairs. -/
def maxPair (p q : ℚ × Str) : ℚ × Str := if pairLtB p q then q else p

/-- The similarity cutoff `0.6` of `difflib.get_close_matches`
(the default, which `extract_city` uses). -/
def cutoffRat : ℚ := mkRat 3 5

/-- `difflib.get_close_matches(word, possibilities, n=1, cutoff=0.6)`,
with the similarity already fixed as `r x` for candidate `x`: keep the
candidates whose score reaches the cutoff and return the one with the
largest `(score, candidate)` pair, if any. -/
def get_close_matches_1 (r : Str → ℚ) (poss : List Str) : Option Str :=
  match (poss.filter (fun x => decide (cutoffRat ≤ r x))).map (fun x => (r x, x)) with
  | [] => none
  | p :: ps => some ((ps.foldl maxPair p).2)

/-- The first loop of `extract_city`: return the `local` name of the
first directory entry whose lowercased name occurs in the lowercased
input text. -/
def firstContained (lower : Str) : List Loc → Option Str
  | [] => none
  | loc :: rest =>
      if containsSub (pyLower loc.localName) lower then some loc.localName
      else firstContained lower rest

/-- `extract_city(session, text)` from `app/main.py`, with the directory
fetch replaced by the `dir` parameter and the `SequenceMatcher` score by
the `ratio` parameter.  Exact containment first; otherwise the single
best fuzzy match of the whole lowered text against the lowered names,
mapped back to the canonical spelling of the first entry bearing it. -/
def extract_city (ratio : Str → Str → ℚ) (dir : List Loc) (text : Str) : Option Str :=
  match firstContained (pyLower text) dir with
  | some name => some name
  | none =>
    match get_close_matches_1 (fun x => ratio x (pyLower text))
        ((dir.map (fun l => l.localName)).map pyLower) with
    | some matched =>
      match dir.find? (fun l => decide (pyLower l.localName = matched)) with
      | some loc => some loc.localName
      | none => none
    | none => none

/-- The keyword lists of the `PREPROCESSORS` table. -/
def INTENT_KEYWORDS : List Str :=
  ["gráfico".data, "grafico".data, "tempo".data, "previsão".data, "mapa".data,
   "todas as cidades".data, "todas localidades".data, "all cities".data]

/-- The output of `parse_user_input`: one field per `PREPROCESSORS` key. -/
structure IntentFlags where
  cidade : Option Str
  incluir_grafico : Bool
  intencao_previsao : Bool
  mostrar_mapa : Bool
  todas_localidades : Bool
deriving DecidableEq

/-- `parse_user_input(session, text)`: run every entry of the
`PREPROCESSORS` table on the text.  The directory fetch that
`extract_city` performs is the `dir` parameter. -/
def parse_user_input (ratio : Str → Str → ℚ) (dir : List Loc) (text : Str) : IntentFlags :=
  { cidade := extract_city ratio dir text
    incluir_grafico :=
      containsSub ("gráfico").data (pyLower text) || containsSub ("grafico").data (pyLower text)
    intencao_previsao :=
      containsSub ("tempo").data (pyLower text) || containsSub ("previsão").data (pyLower text)
    mostrar_mapa := containsSub ("mapa").data (pyLower text)
    todas_localidades :=
      containsSub ("todas as cidades").data (pyLower text)
        || containsSub ("todas localidades").data (pyLower text)
        || containsSub ("all cities").data (pyLower text) }

/-- One entry of the weather-type classification table. -/
structure WeatherType where
  idWeatherType : Int
  descWeatherTypePT : Str
deriving DecidableEq

/-- One entry of the precipitation classification table. -/
structure PrecType where
  classPrecInt : PyVal
  descClassPrecIntPT : Str
deriving DecidableEq

/-- One raw day record of the forecast feed.  `classPrecInt`,
`precitaProb` and `precipitaProb` are read with `dict.get`, so they are
optional here; the other keys are indexed directly. -/
structure RawForecastDay where
  forecastDate : Str
  tMin : PyVal
  tMax : PyVal
  predWindDir : PyVal
  idWeatherType : Int
  classPrecInt : Option PyVal
  precitaProb : Option PyVal
  precipitaProb : Option PyVal
deriving DecidableEq

/-- The normalized per-day summary built by `format_day`. -/
structure DaySummary where
  data : Str
  temperatura_min : PyVal
  temperatura_max : PyVal
  vento : PyVal
  tipo_tempo : Str
  precipitacao : Str
  prob_precipitacao : PyVal
  emoji : Str
deriving DecidableEq

/-- The module-level `EMOJI_MAP` dictionary, in source order. -/
def EMOJI_MAP : List (Str × Str) :=
  [("Céu limpo".data, "☀️".data),
   ("Céu pouco nublado".data, "⛅".data),
   ("Céu parcialmente nublado".data, "⛅".data),
   ("Céu muito nublado ou encoberto".data, "☁️".data),
   ("Céu nublado por nuvens altas".data, "☁️".data),
   ("Céu com períodos de muito nublado".data, "☁️".data),
   ("Céu nublado".data, "☁️".data),
   ("Aguaceiros/chuva".data, "🌧️".data),
   ("Aguaceiros/chuva fracos".data, "🌦️".data),
   ("Aguaceiros/chuva fortes".data, "⛈️".data),
   ("Chuva/aguaceiros".data, "🌧️".data),
   ("Chuva fraca ou chuvisco".data, "🌦️".data),
   ("Chuva/aguaceiros forte".data, "⛈️".data),
   ("Períodos de chuva".data, "🌧️".data),
   ("Períodos de chuva fraca".data, "🌦️".data),
   ("Períodos de chuva forte".data, "⛈️".data),
   ("Chuvisco".data, "🌦️".data),
   ("Neblina".data, "🌫️".data),
   ("Nevoeiro ou nuvens baixas".data, "🌫️".data),
   ("Nevoeiro".data, "🌫️".data),
   ("Neve".data, "❄️".data),
   ("Aguaceiros de neve".data, "🌨️".data),
   ("Chuva e Neve".data, "🌨️".data),
   ("Trovoada".data, "⛈️".data),
   ("Aguaceiros e possibilidade de trovoada".data, "⛈️".data),
   ("Chuva e possibilidade de trovoada".data, "⛈️".data),
   ("Granizo".data, "🌨️".data),
   ("Geada".data, "🧊".data),
   ("Nebulosidade convectiva".data, "☁️".data)]

/-- `format_day(day, types, precs)`: join one raw day against the two
classification tables.  The weather lookup compares `idWeatherType`
directly; the precipitation lookup compares `str(...)` of both codes;
the probability prefers the `precitaProb` key, then `precipitaProb`,
then the string `"0"`; the emoji is `EMOJI_MAP.get(desc, "")`. -/
def format_day (day : RawForecastDay) (types : List WeatherType) (precs : List PrecType) : DaySummary :=
  let desc :=
    match types.find? (fun w => decide (w.idWeatherType = day.idWeatherType)) with
    | some w => w.descWeatherTypePT
    | none => ("Desconhecido").data
  let pdesc :=
    match day.classPrecInt with
    | none => ("Sem dados").data
    | some cpi =>
      match precs.find? (fun p => decide (pyStr p.classPrecInt = pyStr cpi)) with
      | some p => p.descClassPrecIntPT
      | none => ("Sem dados").data
  { data := day.forecastDate
    temperatura_min := day.tMin
    temperatura_max := day.tMax
    vento := day.predWindDir
    tipo_tempo := desc
    precipitacao := pdesc
    prob_precipitacao := day.precitaProb.getD (day.precipitaProb.getD (PyVal.vStr ("0").data))
    emoji :=
      match EMOJI_MAP.find? (fun e => decide (e.1 = desc)) with
      | some e => e.2
      | none => [] }

/-- The data of the two-series temperature chart built by
`generate_plot` (dates, minimum series, maximum series); the plotly HTML
wrapping is presentational. -/
structure PlotFrag where
  dates : List Str
  tmin : List PyVal
  tmax : List PyVal
deriving DecidableEq

/-- `generate_plot(forecast_data)`. -/
def generate_plot (forecast_data : List RawForecastDay) : PlotFrag :=
  { dates := forecast_data.map (fun d => d.forecastDate)
    tmin := forecast_data.map (fun d => d.tMin)
    tmax := forecast_data.map (fun d => d.tMax) }

/-- One Leaflet marker emitted by a map fragment: coordinates and popup
text.  Coordinates are carried as the raw directory values; the
`float(...)` conversion and the surrounding HTML/script text are
presentational. -/
structure Marker where
  latitude : PyVal
  longitude : PyVal
  popup : Str
deriving DecidableEq

/-- A map fragment: either the single-location map of `generate_map` or
the shared multi-location map of `generate_map_all`. -/
inductive MapFrag
  | single (m : Marker)
  | multi (ms : List Marker)
deriving DecidableEq

/-- `generate_map(lat, lon, popup)`: one marker with an opened popup. -/
def generate_map (latitude longitude : PyVal) (popup : Str) : Marker :=
  { latitude := latitude, longitude := longitude, popup := popup }

/-- `forecasts.get(gid, {})` on the forecasts dictionary of the
all-locations branch. -/
def lookupGid (forecasts : List (Int × DaySummary)) (gid : Int) : Option DaySummary :=
  (forecasts.find? (fun p => decide (p.1 = gid))).map (fun p => p.2)

/-- The popup text of one marker of `generate_map_all`: the location
name, extended with today's summary when one was computed for its id
(`if f:` in the source; a computed summary dictionary is never empty,
so it is truthy exactly when the id is in the dictionary). -/
def popupFor (forecasts : List (Int × DaySummary)) (loc : Loc) : Str :=
  match lookupGid forecasts loc.globalIdLocal with
  | none => loc.localName
  | some f =>
      loc.localName ++ (" — ").data ++ f.emoji ++ (" ").data ++ f.tipo_tempo
        ++ (" ").data ++ pyStr f.temperatura_min ++ ("°C–").data
        ++ pyStr f.temperatura_max ++ ("°C").data

/-- `generate_map_all(locations, forecasts)`: the marker list of the
shared map, one marker per location, in listing order.  The fixed
national center and zoom and the HTML text around the markers are
presentational. -/
def generate_map_all (locations : List Loc) (forecasts : List (Int × DaySummary)) :
    List Marker :=
  match locations with
  | [] => []
  | loc :: rest =>
      { latitude := loc.latitude, longitude := loc.longitude,
        popup := popupFor forecasts loc } :: generate_map_all rest forecasts

/-- `build_prompt(cidade, hoje)`. -/
def build_prompt (cidade : Str) (hoje : DaySummary) : Str :=
  ("Cidade: ").data ++ cidade
    ++ ("\nData: ").data ++ hoje.data
    ++ ("\nTempo: ").data ++ hoje.tipo_tempo ++ (" ").data ++ hoje.emoji
    ++ ("\nTª min: ").data ++ pyStr hoje.temperatura_min
    ++ ("°C\nTª max: ").data ++ pyStr hoje.temperatura_max
    ++ ("°C\nVento: ").data ++ pyStr hoje.vento
    ++ ("\nPrecipitação: ").data ++ hoje.precipitacao
    ++ ("\nProb.: ").data ++ pyStr hoje.prob_precipitacao
    ++ ("%\n\nResponde em português europeu, de forma simpática.").data

/-- The four datasets returned by `gather_data` when every provider
fetch succeeds. -/
structure GatheredData where
  locations : List Loc
  forecast : List RawForecastDay
  weather_types : List WeatherType
  precipitation : List PrecType
deriving DecidableEq

/-- `gather_data(session, parsed)`: await the four `DATA_PROVIDERS` in
table order.  Each argument is the outcome of one provider's fetch; a
raised fetch error aborts the loop and propagates, so no partial output
dictionary is ever produced. -/
def gather_data {E : Type} (locations : Except E (List Loc))
    (forecast : Except E (List RawForecastDay))
    (weather_types : Except E (List WeatherType))
    (precipitation : Except E (List PrecType)) : Except E GatheredData :=
  match locations with
  | .error e => .error e
  | .ok l =>
    match forecast with
    | .error e => .error e
    | .ok f =>
      match weather_types with
      | .error e => .error e
      | .ok w =>
        match precipitation with
        | .error e => .error e
        | .ok p => .ok { locations := l, forecast := f, weather_types := w, precipitation := p }

/-- Which branch of the `/chat` handler produced the response
(model instrumentation, mirroring the handler's return sites in order). -/
inductive Branch
  | empty
  | allLocations
  | unresolvable
  | notFound
  | full
deriving DecidableEq, BEq

/-- The one exception the modelled handler can raise on its own:
`data["forecast"][0]` on an empty forecast list. -/
inductive ChatErr
  | indexError
deriving DecidableEq

/-- The upstream world of one request: the directory listing, the
forecast feed per location id, the two classification tables and the
narrative backend.  Using one `dir` for every directory fetch of the
request encodes that the endpoint answers consistently within the
request. -/
structure Oracle where
  dir : List Loc
  forecastFor : Int → List RawForecastDay
  weather_types : List WeatherType
  precipitation : List PrecType
  mistral : Str → Str

/-- The template context rendered by the handler, together with the
number of upstream HTTP requests the chosen code path performed
(`fetch_json` calls plus the narrative POST) and the branch tag. -/
structure ChatResponse where
  user_message : Str
  resposta : Str
  grafico_html : Option PlotFrag
  map_html : Option MapFrag
  plot_list : Option (List (Str × PlotFrag))
  fetches : Nat
  branch : Branch
deriving DecidableEq

/-- The fixed apology of the empty-message branch. -/
def apologiaVazia : Str :=
  ("Desculpa, não recebi nenhuma mensagem. Podes tentar novamente?").data

/-- The fixed clarification request of the unresolvable branch. -/
def clarificacao : Str :=
  ("Desculpa, não consegui processar o teu pedido. Podes reformular indicando cidade e o que pretendes?").data

/-- The confirmation request of the not-found branch, embedding the
resolved city name. -/
def naoEncontrei (cid : Str) : Str :=
  ("Não encontrei \x27").data ++ cid ++ ("\x27. Podes confirmar o nome?").data

/-- The fixed lead-in of the all-locations branch. -/
def todasLeadIn : Str := ("Mapa e gráficos de todas as cidades:").data

/-- A response with no chart, no map and no plot list. -/
def respostaSimples (text resposta : Str) (fetches : Nat) (branch : Branch) : ChatResponse :=
  { user_message := text, resposta := resposta, grafico_html := none, map_html := none,
    plot_list := none, fetches := fetches, branch := branch }

/-- The per-location loop of the all-locations branch: for each location
gather its data, summarize day zero with `format_day`, and build its
chart; raises `IndexError` when a forecast list is empty. -/
def allLoop (o : Oracle) : List Loc →
    Except ChatErr (List (Int × DaySummary) × List (Str × PlotFrag))
  | [] => .ok ([], [])
  | loc :: rest =>
    match o.forecastFor loc.globalIdLocal with
    | [] => .error .indexError
    | d :: ds =>
      match allLoop o rest with
      | .error e => .error e
      | .ok fp =>
        .ok ((loc.globalIdLocal, format_day d o.weather_types o.precipitation) :: fp.1,
             (loc.localName, generate_plot (d :: ds)) :: fp.2)

/-- The all-locations branch of the handler: one extra directory fetch,
then four gathered fetches per location; the chart list is attached only
when `incluir_grafico` is set (the loop builds the plots only then, but
the computation is pure, so building them unconditionally here is not
observable). -/
def chatAll (o : Oracle) (flags : IntentFlags) (text : Str) : Except ChatErr ChatResponse :=
  match allLoop o o.dir with
  | .error e => .error e
  | .ok fp =>
    .ok { user_message := text, resposta := todasLeadIn, grafico_html := none,
          map_html := some (MapFrag.multi (generate_map_all o.dir fp.1)),
          plot_list := if flags.incluir_grafico then some fp.2 else none,
          fetches := 2 + 4 * o.dir.length, branch := Branch.allLocations }

/-- The single-location tail of the handler: re-fetch the directory,
resolve the canonical id by exact lowercased equality, gather the four
datasets, summarize today, call the narrative backend, and attach the
optional chart and map fragments. -/
def chatSingle (o : Oracle) (flags : IntentFlags) (text cid : Str) :
    Except ChatErr ChatResponse :=
  match o.dir.find? (fun l => decide (pyLower l.localName = pyLower cid)) with
  | none => .ok (respostaSimples text (naoEncontrei cid) 2 Branch.notFound)
  | some obj =>
    match o.forecastFor obj.globalIdLocal with
    | [] => .error ChatErr.indexError
    | d :: ds =>
      let hoje := format_day d o.weather_types o.precipitation
      .ok { user_message := text
            resposta := o.mistral (build_prompt cid hoje)
            grafico_html :=
              if flags.incluir_grafico then some (generate_plot (d :: ds)) else none
            map_html :=
              if flags.mostrar_mapa then
                some (MapFrag.single (generate_map obj.latitude obj.longitude
                  (hoje.emoji ++ (" ").data ++ hoje.tipo_tempo ++ (", ").data
                    ++ pyStr hoje.temperatura_min ++ ("°C–").data
                    ++ pyStr hoje.temperatura_max ++ ("°C").data)))
              else none
            plot_list := none
            fetches := 7
            branch := Branch.full }

/-- The non-empty-message part of the handler, in the source's branch
order: all-locations first, then the unresolvable guard, then the
single-location tail. -/
def chatDispatch (ratio : Str → Str → ℚ) (o : Oracle) (text : Str) :
    Except ChatErr ChatResponse :=
  if (parse_user_input ratio o.dir text).todas_localidades then
    chatAll o (parse_user_input ratio o.dir text) text
  else
    match (parse_user_input ratio o.dir text).cidade with
    | none => .ok (respostaSimples text clarificacao 1 Branch.unresolvable)
    | some cid =>
      if (parse_user_input ratio o.dir text).intencao_previsao = false then
        .ok (respostaSimples text clarificacao 1 Branch.unresolvable)
      else chatSingle o (parse_user_input ratio o.dir text) text cid

/-- The `/chat` handler `chat_htmx`: strip the form message; an empty
result is answered immediately with the apology and no fetches,
otherwise the request is parsed and dispatched. -/
def chat_htmx (ratio : Str → Str → ℚ) (o : Oracle) (mensagem : Str) :
    Except ChatErr ChatResponse :=
  if pyStrip mensagem = [] then
    .ok (respostaSimples (pyStrip mensagem) apologiaVazia 0 Branch.empty)
  else chatDispatch ratio o (pyStrip mensagem)

/-- The branch tag of a handler outcome, when it produced a response. -/
def chatBranch : Except ChatErr ChatResponse → Option Branch
  | .ok r => some r.branch
  | .error _ => none

/-- Equality of fetch outcomes is decidable when both payloads are. -/
instance {ε α : Type} [DecidableEq ε] [DecidableEq α] : DecidableEq (Except ε α) :=
  fun a b =>
    match a, b with
    | .error e, .error f =>
      if h : e = f then isTrue (by rw [h]) else isFalse (by simp [h])
    | .ok x, .ok y =>
      if h : x = y then isTrue (by rw [h]) else isFalse (by simp [h])
    | .error _, .ok _ => isFalse (by simp)
    | .ok _, .error _ => isFalse (by simp)

/-! ### Concrete fixtures evaluated by the closed instance theorems -/

/-- A degenerate similarity: every comparison scores zero. -/
def ratio0 : Str → Str → ℚ := fun _ _ => 0

/-- A similarity that recognizes only the candidate "lisboa". -/
def ratioLis : Str → Str → ℚ :=
  fun x _ => if x = ("lisboa").data then mkRat 7 10 else 0

/-- A directory entry shaped like the IPMA record for Porto. -/
def locPorto : Loc :=
  { localName := "Porto".data, globalIdLocal := 1131200,
    latitude := PyVal.vStr ("41.1496").data, longitude := PyVal.vStr ("-8.6110").data }

/-- A directory entry shaped like the IPMA record for Lisboa. -/
def locLisboa : Loc :=
  { localName := "Lisboa".data, globalIdLocal := 1110600,
    latitude := PyVal.vStr ("38.7660").data, longitude := PyVal.vStr ("-9.1286").data }

/-- A one-entry directory. -/
def dirPorto : List Loc := [locPorto]

/-- A request world whose directory only lists Lisboa. -/
def oracleLisboa : Oracle :=
  { dir := [locLisboa], forecastFor := fun _ => [], weather_types := [],
    precipitation := [], mistral := fun _ => [] }

/-- A raw forecast day carrying both probability keys and codes missing
from the (empty) classification tables used with it. -/
def dayW : RawForecastDay :=
  { forecastDate := "2026-10-12".data, tMin := PyVal.vStr ("12.0").data,
    tMax := PyVal.vStr ("20.1").data, predWindDir := PyVal.vStr ("N").data,
    idWeatherType := 99, classPrecInt := some (PyVal.vInt 4),
    precitaProb := some (PyVal.vStr ("10.0").data),
    precipitaProb := some (PyVal.vStr ("55.0").data) }

/-- The summary of `dayW` against empty classification tables. -/
def summaryW : DaySummary := format_day dayW [] []

/-- A two-entry location list. -/
def locsW : List Loc := [locPorto, locLisboa]

/-- A forecast mapping covering only Porto's id. -/
def fcsW : List (Int × DaySummary) := [(1131200, summaryW)]

/-! ### Helper lemmas: the maximum of scored candidates -/

theorem pairLtB_fst_le {p q : ℚ × Str} (h : pairLtB p q = true) : p.1 ≤ q.1 := by
  unfold pairLtB at h
  split at h
  · exact le_of_lt (by assumption)
  · split at h
    · exact le_of_eq (by assumption)
    · cases h

theorem pairLtB_false_fst_le {p q : ℚ × Str} (h : pairLtB p q = false) : q.1 ≤ p.1 := by
  unfold pairLtB at h
  split at h
  · cases h
  · exact le_of_not_lt (by assumption)

theorem maxPair_choice (p q : ℚ × Str) : maxPair p q = p ∨ maxPair p q = q := by
  unfold maxPair
  split
  · exact Or.inr rfl
  · exact Or.inl rfl

theorem le_maxPair_left (p q : ℚ × Str) : p.1 ≤ (maxPair p q).1 := by
  unfold maxPair
  split
  · exact pairLtB_fst_le (by assumption)
  · exact le_refl _

theorem le_maxPair_right (p q : ℚ × Str) : q.1 ≤ (maxPair p q).1 := by
  unfold maxPair
  split
  · exact le_refl _
  · exact pairLtB_false_fst_le (by simpa using (by assumption : ¬pairLtB p q = true))

theorem foldl_maxPair_mem (ps : List (ℚ × Str)) : ∀ p, ps.foldl maxPair p ∈ p :: ps := by
  induction ps with
  | nil => intro p; simp [List.foldl]
  | cons a as ih =>
    intro p
    have h := ih (maxPair p a)
    rw [List.foldl_cons]
    rcases List.mem_cons.mp h with h1 | h1
    · rcases maxPair_choice p a with hc | hc
      · rw [h1, hc]; exact List.mem_cons_self _ _
      · rw [h1, hc]; exact List.mem_cons_of_mem _ (List.mem_cons_self _ _)
    · exact List.mem_cons_of_mem _ (List.mem_cons_of_mem _ h1)

theorem foldl_maxPair_ge (ps : List (ℚ × Str)) :
    ∀ p q, q ∈ p :: ps → q.1 ≤ (ps.foldl maxPair p).1 := by
  induction ps with
  | nil =>
    intro p q hq
    rw [List.mem_singleton] at hq
    rw [hq]
    exact le_refl _
  | cons a as ih =>
    intro p q hq
    rw [List.foldl_cons]
    rcases List.mem_cons.mp hq with h | h
    · rw [h]
      exact le_trans (le_maxPair_left p a) (ih (maxPair p a) _ (List.mem_cons_self _ _))
    · rcases List.mem_cons.mp h with h2 | h2
      · rw [h2]
        exact le_trans (le_maxPair_right p a) (ih (maxPair p a) _ (List.mem_cons_self _ _))
      · exact ih (maxPair p a) q (List.mem_cons_of_mem _ h2)

/-- What a returned fuzzy match satisfies: it is one of the candidates,
its score reaches the cutoff, and no candidate scores higher. -/
theorem get_close_matches_1_some (r : Str → ℚ) (poss : List Str) (m : Str)
    (h : get_close_matches_1 r poss = some m) :
    m ∈ poss ∧ cutoffRat ≤ r m ∧ ∀ x ∈ poss, r x ≤ r m := by
  unfold get_close_matches_1 at h
  cases hmap : (poss.filter (fun x => decide (cutoffRat ≤ r x))).map (fun x => (r x, x)) with
  | nil => rw [hmap] at h; cases h
  | cons p ps =>
    rw [hmap] at h
    have hbest : ps.foldl maxPair p ∈ p :: ps := foldl_maxPair_mem ps p
    rw [← hmap] at hbest
    obtain ⟨x, hxfl, hxeq⟩ := List.mem_map.mp hbest
    have hm : m = x := by
      have h2 := congrArg Prod.snd hxeq
      simp only at h2
      injection h with h3
      rw [← h3, ← h2]
    obtain ⟨hxposs, hxdec⟩ := List.mem_filter.mp hxfl
    have hxcut : cutoffRat ≤ r x := of_decide_eq_true hxdec
    have hfst : (ps.foldl maxPair p).1 = r x := by rw [← hxeq]
    refine ⟨hm ▸ hxposs, hm ▸ hxcut, ?_⟩
    intro y hy
    by_cases hc : cutoffRat ≤ r y
    · have hyfl : y ∈ poss.filter (fun x => decide (cutoffRat ≤ r x)) :=
        List.mem_filter.mpr ⟨hy, decide_eq_true hc⟩
      have hymem : (r y, y) ∈ p :: ps := by
        rw [← hmap]
        exact List.mem_map.mpr ⟨y, hyfl, rfl⟩
      have := foldl_maxPair_ge ps p (r y, y) hymem
      rw [hfst] at this
      exact hm ▸ this
    · exact le_trans (le_of_lt (lt_of_not_le hc)) (hm ▸ hxcut)

/-- When some candidate reaches the cutoff a match is returned. -/
theorem get_close_matches_1_isSome (r : Str → ℚ) (poss : List Str) (x : Str)
    (hx : x ∈ poss) (hc : cutoffRat ≤ r x) :
    ∃ m, get_close_matches_1 r poss = some m := by
  have hmem : x ∈ poss.filter (fun y => decide (cutoffRat ≤ r y)) :=
    List.mem_filter.mpr ⟨hx, decide_eq_true hc⟩
  unfold get_close_matches_1
  cases hmap : (poss.filter (fun y => decide (cutoffRat ≤ r y))).map (fun y => (r y, y)) with
  | nil =>
    exfalso
    rw [List.map_eq_nil_iff] at hmap
    rw [hmap] at hmem
    cases hmem
  | cons p ps =>
    exact ⟨(ps.foldl maxPair p).2, rfl⟩

/-- When every candidate scores below the cutoff there is no match. -/
theorem get_close_matches_1_none (r : Str → ℚ) (poss : List Str)
    (h : ∀ x ∈ poss, r x < cutoffRat) :
    get_close_matches_1 r poss = none := by
  unfold get_close_matches_1
  have hfl : poss.filter (fun x => decide (cutoffRat ≤ r x)) = [] := by
    rw [List.filter_eq_nil_iff]
    intro a ha
    simp only [decide_eq_true_eq]
    exact not_le.mpr (h a ha)
  rw [hfl]
  rfl

/-! ### Helper lemmas: location lookup -/

/-- The containment loop is the first match of the containment test. -/
theorem firstContained_eq_find (lower : Str) (dir : List Loc) :
    firstContained lower dir
      = (dir.find? (fun l => containsSub (pyLower l.localName) lower)).map
          (fun l => l.localName) := by
  induction dir with
  | nil => rfl
  | cons a as ih =>
    cases h : containsSub (pyLower a.localName) lower with
    | true => simp [firstContained, List.find?, h]
    | false => simp [firstContained, List.find?, h, ih]

/-- A containment match is the name of a directory entry. -/
theorem firstContained_some (lower : Str) (dir : List Loc) (name : Str)
    (h : firstContained lower dir = some name) :
    ∃ loc, loc ∈ dir ∧ name = loc.localName := by
  induction dir with
  | nil => cases h
  | cons a as ih =>
    unfold firstContained at h
    split at h
    · injection h with h1
      exact ⟨a, List.mem_cons_self _ _, h1.symm⟩
    · obtain ⟨loc, hmem, heq⟩ := ih h
      exact ⟨loc, List.mem_cons_of_mem _ hmem, heq⟩

/-- Everything `extract_city` returns is the canonical `local` field of
some directory entry. -/
theorem extract_city_mem (ratio : Str → Str → ℚ) (dir : List Loc) (text : Str) (c : Str)
    (h : extract_city ratio dir text = some c) :
    ∃ loc, loc ∈ dir ∧ c = loc.localName := by
  unfold extract_city at h
  split at h
  next name hfc =>
    injection h with h1
    exact h1 ▸ firstContained_some _ _ _ hfc
  next hfc =>
    split at h
    next matched hg =>
      split at h
      next loc hfind =>
        injection h with h1
        exact ⟨loc, List.mem_of_find?_eq_some hfind, h1.symm⟩
      next hfind => cases h
    next hg => cases h

/-- With no containment match and every directory name scoring below the
cutoff against the text, `extract_city` finds nothing. -/
theorem extract_city_none_of_low (ratio : Str → Str → ℚ) (dir : List Loc) (text : Str)
    (hsub : firstContained (pyLower text) dir = none)
    (hlow : ∀ l ∈ dir, ratio (pyLower l.localName) (pyLower text) < cutoffRat) :
    extract_city ratio dir text = none := by
  unfold extract_city
  rw [hsub]
  have hg : get_close_matches_1 (fun x => ratio x (pyLower text))
      ((dir.map (fun l => l.localName)).map pyLower) = none := by
    apply get_close_matches_1_none
    intro x hx
    obtain ⟨n, hn, hnx⟩ := List.mem_map.mp hx
    obtain ⟨l, hl, hln⟩ := List.mem_map.mp hn
    rw [← hnx, ← hln]
    exact hlow l hl
  rw [hg]

/-- With no containment match but some directory name reaching the
cutoff, `extract_city` returns a match. -/
theorem extract_city_some_of_high (ratio : Str → Str → ℚ) (dir : List Loc) (text : Str)
    (hsub : firstContained (pyLower text) dir = none)
    (hhigh : ∃ l, l ∈ dir ∧ cutoffRat ≤ ratio (pyLower l.localName) (pyLower text)) :
    ∃ c, extract_city ratio dir text = some c := by
  obtain ⟨l, hl, hc⟩ := hhigh
  obtain ⟨m, hm⟩ := get_close_matches_1_isSome (fun x => ratio x (pyLower text))
      ((dir.map (fun q => q.localName)).map pyLower) (pyLower l.localName)
      (List.mem_map.mpr ⟨l.localName, List.mem_map.mpr ⟨l, hl, rfl⟩, rfl⟩) hc
  obtain ⟨hmem, _, _⟩ := get_close_matches_1_some _ _ _ hm
  obtain ⟨n, hn, hnm⟩ := List.mem_map.mp hmem
  obtain ⟨l2, hl2, hl2n⟩ := List.mem_map.mp hn
  have hfind : (dir.find? (fun q => decide (pyLower q.localName = m))).isSome := by
    rw [List.find?_isSome]
    exact ⟨l2, hl2, by simp [hl2n, hnm]⟩
  obtain ⟨loc, hfd⟩ := Option.isSome_iff_exists.mp hfind
  refine ⟨loc.localName, ?_⟩
  simp only [extract_city, hsub, hm, hfd]

/-- With no containment match, a fuzzy result is a directory name whose
lowered form scores at least the cutoff and at least as high as every
directory name. -/
theorem extract_city_fuzzy (ratio : Str → Str → ℚ) (dir : List Loc) (text : Str) (c : Str)
    (hsub : firstContained (pyLower text) dir = none)
    (h : extract_city ratio dir text = some c) :
    (∃ loc, loc ∈ dir ∧ c = loc.localName)
      ∧ cutoffRat ≤ ratio (pyLower c) (pyLower text)
      ∧ ∀ l ∈ dir,
          ratio (pyLower l.localName) (pyLower text) ≤ ratio (pyLower c) (pyLower text) := by
  unfold extract_city at h
  split at h
  next name hfc => rw [hsub] at hfc; cases hfc
  next hfc =>
    split at h
    next matched hg =>
      split at h
      next loc hfind =>
        injection h with h1
        have hpred := List.find?_some hfind
        have hloceq : pyLower loc.localName = matched := of_decide_eq_true hpred
        obtain ⟨hmem, hcut, hmax⟩ := get_close_matches_1_some _ _ _ hg
        have hcm : pyLower c = matched := by rw [← h1, hloceq]
        refine ⟨⟨loc, List.mem_of_find?_eq_some hfind, h1.symm⟩, ?_, ?_⟩
        · rw [hcm]; exact hcut
        · intro l hl
          rw [hcm]
          exact hmax (pyLower l.localName)
            (List.mem_map.mpr ⟨l.localName, List.mem_map.mpr ⟨l, hl, rfl⟩, rfl⟩)
      next hfind => cases h
    next hg => cases h

/-! ### Claim theorems -/

/-- Claim C1: the Intent Extractor sets `incluir_grafico` true iff the
lowercased text contains "gráfico" or "grafico", `intencao_previsao`
true iff it contains "tempo" or "previsão", `mostrar_mapa` true iff it
contains "mapa", and `todas_localidades` true iff it contains
"todas as cidades", "todas localidades" or "all cities"; for a text
containing none of the keywords all four boolean flags are false. -/
theorem parse_user_input_flags (ratio : Str → Str → ℚ) (dir : List Loc) (t : Str) :
    ((parse_user_input ratio dir t).incluir_grafico = true ↔
      (containsSub ("gráfico").data (pyLower t) = true
        ∨ containsSub ("grafico").data (pyLower t) = true))
  ∧ ((parse_user_input ratio dir t).intencao_previsao = true ↔
      (containsSub ("tempo").data (pyLower t) = true
        ∨ containsSub ("previsão").data (pyLower t) = true))
  ∧ ((parse_user_input ratio dir t).mostrar_mapa = true ↔
      containsSub ("mapa").data (pyLower t) = true)
  ∧ ((parse_user_input ratio dir t).todas_localidades = true ↔
      (containsSub ("todas as cidades").data (pyLower t) = true
        ∨ containsSub ("todas localidades").data (pyLower t) = true
        ∨ containsSub ("all cities").data (pyLower t) = true))
  ∧ ((∀ k ∈ INTENT_KEYWORDS, containsSub k (pyLower t) = false) →
      (parse_user_input ratio dir t).incluir_grafico = false
        ∧ (parse_user_input ratio dir t).intencao_previsao = false
        ∧ (parse_user_input ratio dir t).mostrar_mapa = false
        ∧ (parse_user_input ratio dir t).todas_localidades = false) := by
  refine ⟨?_, ?_, ?_, ?_, ?_⟩
  · simp [parse_user_input, Bool.or_eq_true]
  · simp [parse_user_input, Bool.or_eq_true]
  · simp [parse_user_input]
  · simp [parse_user_input, Bool.or_eq_true, or_assoc]
  · intro h
    have h1 := h ("gráfico").data (by simp [INTENT_KEYWORDS])
    have h2 := h ("grafico").data (by simp [INTENT_KEYWORDS])
    have h3 := h ("tempo").data (by simp [INTENT_KEYWORDS])
    have h4 := h ("previsão").data (by simp [INTENT_KEYWORDS])
    have h5 := h ("mapa").data (by simp [INTENT_KEYWORDS])
    have h6 := h ("todas as cidades").data (by simp [INTENT_KEYWORDS])
    have h7 := h ("todas localidades").data (by simp [INTENT_KEYWORDS])
    have h8 := h ("all cities").data (by simp [INTENT_KEYWORDS])
    simp [parse_user_input, h1, h2, h3, h4, h5, h6, h7, h8]

theorem parse_user_input_flags_witness :
    (parse_user_input ratio0 dirPorto ("olá bom dia").data).incluir_grafico = false
      ∧ (parse_user_input ratio0 dirPorto ("olá bom dia").data).intencao_previsao = false
      ∧ (parse_user_input ratio0 dirPorto ("olá bom dia").data).mostrar_mapa = false
      ∧ (parse_user_input ratio0 dirPorto ("olá bom dia").data).todas_localidades = false :=
  (parse_user_input_flags ratio0 dirPorto ("olá bom dia").data).2.2.2.2 (by decide)

/-- Claim C2: location lookup returns the first directory entry, in
listing order, whose name is a case-insensitive substring of the full
text; with no containment match a returned fuzzy result is a directory
name whose similarity to the full text reaches the 0.6 cutoff and is
maximal over the directory, and when every entry scores below 0.6 the
lookup returns nothing. -/
theorem extract_city_correct (ratio : Str → Str → ℚ) (dir : List Loc) (text : Str) :
    (∀ loc, dir.find? (fun l => containsSub (pyLower l.localName) (pyLower text)) = some loc →
        extract_city ratio dir text = some loc.localName)
  ∧ (dir.find? (fun l => containsSub (pyLower l.localName) (pyLower text)) = none →
      (∀ c, extract_city ratio dir text = some c →
          (∃ loc, loc ∈ dir ∧ c = loc.localName)
            ∧ cutoffRat ≤ ratio (pyLower c) (pyLower text)
            ∧ ∀ l ∈ dir,
                ratio (pyLower l.localName) (pyLower text) ≤ ratio (pyLower c) (pyLower text))
        ∧ ((∀ l ∈ dir, ratio (pyLower l.localName) (pyLower text) < cutoffRat) →
            extract_city ratio dir text = none)
        ∧ ((∃ l, l ∈ dir ∧ cutoffRat ≤ ratio (pyLower l.localName) (pyLower text)) →
            ∃ c, extract_city ratio dir text = some c)) := by
  constructor
  · intro loc hfind
    unfold extract_city
    rw [firstContained_eq_find, hfind]
    rfl
  · intro hfind
    have hsub : firstContained (pyLower text) dir = none := by
      rw [firstContained_eq_find, hfind]
      rfl
    exact ⟨fun c hc => extract_city_fuzzy ratio dir text c hsub hc,
           fun hlow => extract_city_none_of_low ratio dir text hsub hlow,
           fun hhigh => extract_city_some_of_high ratio dir text hsub hhigh⟩

theorem extract_city_correct_witness :
    extract_city ratio0 dirPorto ("tempo no porto").data = some ("Porto").data
      ∧ extract_city ratio0 dirPorto ("qual é a previsão?").data = none
      ∧ ∃ c, extract_city ratioLis [locPorto, locLisboa] ("tenpo em lisbon").data = some c := by
  refine ⟨?_, ?_, ?_⟩
  · exact (extract_city_correct ratio0 dirPorto ("tempo no porto").data).1 locPorto (by decide)
  · exact ((extract_city_correct ratio0 dirPorto ("qual é a previsão?").data).2
      (by decide)).2.1 (by decide)
  · exact ((extract_city_correct ratioLis [locPorto, locLisboa] ("tenpo em lisbon").data).2
      (by decide)).2.2 ⟨locLisboa, by decide, by decide⟩

/-- Claim C8: `extract_city` returns either nothing or a string exactly
equal to the `local` field of some entry of the fetched directory, never
the raw user text. -/
theorem extract_city_returns_directory_name (ratio : Str → Str → ℚ) (dir : List Loc)
    (text c : Str) (h : extract_city ratio dir text = some c) :
    ∃ loc, loc ∈ dir ∧ c = loc.localName :=
  extract_city_mem ratio dir text c h

theorem extract_city_returns_directory_name_witness :
    ∃ loc, loc ∈ dirPorto ∧ ("Porto").data = loc.localName :=
  extract_city_returns_directory_name ratio0 dirPorto ("Tempo no PORTO hoje").data
    ("Porto").data (by decide)

/-- Claim C3 (amended): the Forecast Normalizer never fails on unmatched
codes; an unmatched weather-type code yields the fixed placeholder
"Desconhecido" (the code's Portuguese literal for "Unknown"), and a
missing or unmatched precipitation-class code yields the fixed
"Sem dados" (the code's literal for "No data"). -/
theorem format_day_placeholders (day : RawForecastDay) (types : List WeatherType)
    (precs : List PrecType) :
    ((∀ w ∈ types, w.idWeatherType ≠ day.idWeatherType) →
        (format_day day types precs).tipo_tempo = ("Desconhecido").data)
  ∧ (day.classPrecInt = none →
        (format_day day types precs).precipitacao = ("Sem dados").data)
  ∧ (∀ cpi, day.classPrecInt = some cpi →
      (∀ p ∈ precs, pyStr p.classPrecInt ≠ pyStr cpi) →
        (format_day day types precs).precipitacao = ("Sem dados").data) := by
  refine ⟨?_, ?_, ?_⟩
  · intro h
    have hfind : types.find? (fun w => decide (w.idWeatherType = day.idWeatherType)) = none :=
      List.find?_eq_none.mpr (fun w hw => by simp [h w hw])
    simp [format_day, hfind]
  · intro h
    simp [format_day, h]
  · intro cpi hcpi h
    have hfind : precs.find? (fun p => decide (pyStr p.classPrecInt = pyStr cpi)) = none :=
      List.find?_eq_none.mpr (fun p hp => by simp [h p hp])
    simp [format_day, hcpi, hfind]

theorem format_day_placeholders_witness :
    (format_day dayW [] []).tipo_tempo = ("Desconhecido").data
      ∧ (format_day dayW [] []).precipitacao = ("Sem dados").data :=
  ⟨(format_day_placeholders dayW [] []).1 (by decide),
   (format_day_placeholders dayW [] []).2.2 (PyVal.vInt 4) (by decide) (by decide)⟩

/-- Claim C3, as stated, is false: at a day whose codes match no table
entry the substituted placeholders are the Portuguese literals, not the
English strings "Unknown" and "No data". -/
theorem format_day_placeholder_literals_cex :
    ((format_day dayW [] []).tipo_tempo == ("Unknown").data) = false
      ∧ ((format_day dayW [] []).precipitacao == ("No data").data) = false := by
  decide

/-- Claim C10: the precipitation probability is the value of the
`precitaProb` key when present, otherwise of the `precipitaProb` key,
otherwise the literal string "0"; when both keys are present
`precitaProb` wins. -/
theorem prob_precipitacao_priority (day : RawForecastDay) (types : List WeatherType)
    (precs : List PrecType) :
    (∀ v, day.precitaProb = some v → (format_day day types precs).prob_precipitacao = v)
  ∧ (day.precitaProb = none → ∀ v, day.precipitaProb = some v →
      (format_day day types precs).prob_precipitacao = v)
  ∧ (day.precitaProb = none → day.precipitaProb = none →
      (format_day day types precs).prob_precipitacao = PyVal.vStr ("0").data) := by
  refine ⟨?_, ?_, ?_⟩
  · intro v hv
    simp [format_day, hv]
  · intro h v hv
    simp [format_day, h, hv]
  · intro h1 h2
    simp [format_day, h1, h2]

theorem prob_precipitacao_priority_witness :
    (format_day dayW [] []).prob_precipitacao = PyVal.vStr ("10.0").data :=
  (prob_precipitacao_priority dayW [] []).1 (PyVal.vStr ("10.0").data) (by decide)

/-- Claim C6: the multi-location map has exactly one marker per listed
location, in order; a location whose id is missing from the summary
mapping keeps its marker, with only its name as popup text. -/
theorem generate_map_all_markers (locations : List Loc)
    (forecasts : List (Int × DaySummary)) :
    (generate_map_all locations forecasts).length = locations.length
  ∧ ∀ pr ∈ locations.zip (generate_map_all locations forecasts),
      lookupGid forecasts pr.1.globalIdLocal = none → pr.2.popup = pr.1.localName := by
  induction locations with
  | nil =>
    refine ⟨rfl, ?_⟩
    intro pr hpr
    cases hpr
  | cons a as ih =>
    refine ⟨?_, ?_⟩
    · simpa [generate_map_all] using ih.1
    · intro pr hpr hnone
      simp only [generate_map_all] at hpr
      rw [List.zip_cons_cons] at hpr
      rcases List.mem_cons.mp hpr with h | h
      · subst h
        simp only at hnone
        simp [popupFor, hnone]
      · exact ih.2 pr h hnone

theorem generate_map_all_markers_witness :
    (Marker.mk locLisboa.latitude locLisboa.longitude (popupFor fcsW locLisboa)).popup
      = locLisboa.localName :=
  (generate_map_all_markers locsW fcsW).2
    (locLisboa, Marker.mk locLisboa.latitude locLisboa.longitude (popupFor fcsW locLisboa))
    (by decide) (by decide)

/-- Claim C7: the Data Aggregator returns the four datasets exactly when
all four fetches succeed; a failing fetch (the first one, in table
order) is propagated and no partial result dictionary is produced. -/
theorem gather_data_fail_fast {E : Type} (l : Except E (List Loc))
    (f : Except E (List RawForecastDay)) (w : Except E (List WeatherType))
    (p : Except E (List PrecType)) :
    (∀ a b c d, l = .ok a → f = .ok b → w = .ok c → p = .ok d →
        gather_data l f w p = .ok ⟨a, b, c, d⟩)
  ∧ (∀ r, gather_data l f w p = .ok r →
        l = .ok r.locations ∧ f = .ok r.forecast ∧ w = .ok r.weather_types
          ∧ p = .ok r.precipitation)
  ∧ (∀ e, l = .error e → gather_data l f w p = .error e)
  ∧ (∀ e a, l = .ok a → f = .error e → gather_data l f w p = .error e)
  ∧ (∀ e a b, l = .ok a → f = .ok b → w = .error e → gather_data l f w p = .error e)
  ∧ (∀ e a b c, l = .ok a → f = .ok b → w = .ok c → p = .error e →
        gather_data l f w p = .error e) := by
  refine ⟨?_, ?_, ?_, ?_, ?_, ?_⟩
  · intro a b c d ha hb hc hd
    subst ha hb hc hd
    rfl
  · intro r hr
    cases l with
    | error e => simp [gather_data] at hr
    | ok a =>
      cases f with
      | error e => simp [gather_data] at hr
      | ok b =>
        cases w with
        | error e => simp [gather_data] at hr
        | ok c =>
          cases p with
          | error e => simp [gather_data] at hr
          | ok d =>
            simp only [gather_data, Except.ok.injEq] at hr
            subst hr
            exact ⟨rfl, rfl, rfl, rfl⟩
  · intro e he
    subst he
    rfl
  · intro e a ha he
    subst ha he
    rfl
  · intro e a b ha hb he
    subst ha hb he
    rfl
  · intro e a b c ha hb hc he
    subst ha hb hc he
    rfl

theorem gather_data_fail_fast_witness :
    @gather_data Unit (.ok []) (.ok []) (.ok []) (.ok []) = .ok ⟨[], [], [], []⟩
      ∧ @gather_data Unit (.ok []) (.error ()) (.ok []) (.ok []) = .error () :=
  ⟨(@gather_data_fail_fast Unit (.ok []) (.ok []) (.ok []) (.ok [])).1
      [] [] [] [] rfl rfl rfl rfl,
   (@gather_data_fail_fast Unit (.ok []) (.error ()) (.ok []) (.ok [])).2.2.2.1
      () [] rfl rfl⟩

/-- Claim C5: an empty or whitespace-only message is answered with the
fixed apology, no chart fragment, no map fragment, no per-location plot
list, and zero upstream fetches. -/
theorem chat_empty_message (ratio : Str → Str → ℚ) (o : Oracle) (mensagem : Str)
    (h : pyStrip mensagem = []) :
    chat_htmx ratio o mensagem
      = Except.ok { user_message := [], resposta := apologiaVazia, grafico_html := none,
                    map_html := none, plot_list := none, fetches := 0,
                    branch := Branch.empty } := by
  unfold chat_htmx
  rw [h]
  rfl

theorem chat_empty_message_witness :
    chat_htmx ratio0 oracleLisboa ("   ").data
      = Except.ok { user_message := [], resposta := apologiaVazia, grafico_html := none,
                    map_html := none, plot_list := none, fetches := 0,
                    branch := Branch.empty } :=
  chat_empty_message ratio0 oracleLisboa ("   ").data (by decide)

/-- Claim C4 (amended): a non-empty, non-all-locations message whose
text has no containment match and scores below the 0.6 cutoff against
every directory entry resolves no location, and the handler answers
with the fixed clarification request, which does not embed the
user-provided city name; the response embedding a city name belongs
only to the later directory re-resolution branch. -/
theorem chat_unmatched_city (ratio : Str → Str → ℚ) (o : Oracle) (mensagem : Str)
    (hne : ¬ pyStrip mensagem = [])
    (htodas : (parse_user_input ratio o.dir (pyStrip mensagem)).todas_localidades = false)
    (hsub : firstContained (pyLower (pyStrip mensagem)) o.dir = none)
    (hlow : ∀ l ∈ o.dir,
        ratio (pyLower l.localName) (pyLower (pyStrip mensagem)) < cutoffRat) :
    chat_htmx ratio o mensagem
      = Except.ok (respostaSimples (pyStrip mensagem) clarificacao 1 Branch.unresolvable) := by
  have hcid0 := extract_city_none_of_low ratio o.dir (pyStrip mensagem) hsub hlow
  have hcid : (parse_user_input ratio o.dir (pyStrip mensagem)).cidade = none := by
    simp only [parse_user_input]
    exact hcid0
  unfold chat_htmx
  rw [if_neg hne]
  unfold chatDispatch
  rw [if_neg (by simp [htodas]), hcid]

theorem chat_unmatched_city_witness :
    chat_htmx ratio0 oracleLisboa ("previsão para Sintra").data
      = Except.ok (respostaSimples ("previsão para Sintra").data clarificacao 1
          Branch.unresolvable) :=
  chat_unmatched_city ratio0 oracleLisboa ("previsão para Sintra").data
    (by decide) (by decide) (by decide) (by decide)

/-- Claim C4, as stated, is false: for "previsão para Xyzzyville"
against a directory with no close entry, the handler answers with the
generic clarification text, which does not contain the literal city
name in either casing. -/
theorem chat_unmatched_city_cex :
    chat_htmx ratio0 oracleLisboa ("previsão para Xyzzyville").data
        = Except.ok (respostaSimples ("previsão para Xyzzyville").data clarificacao 1
            Branch.unresolvable)
      ∧ containsSub ("Xyzzyville").data clarificacao = false
      ∧ containsSub ("xyzzyville").data clarificacao = false := by
  decide

/-- In the all-locations branch the produced branch tag is never the
not-found one. -/
theorem chatAll_branch (o : Oracle) (flags : IntentFlags) (text : Str) :
    (chatBranch (chatAll o flags text) == some Branch.notFound) = false := by
  unfold chatAll
  cases h : allLoop o o.dir with
  | error e => rfl
  | ok fp => rfl

/-- When the resolved city is the name of a directory entry, the exact
lowercased re-resolution of the single-location tail succeeds, so the
not-found response cannot be produced there. -/
theorem chatSingle_branch (o : Oracle) (flags : IntentFlags) (text cid : Str)
    (h : ∃ loc, loc ∈ o.dir ∧ cid = loc.localName) :
    (chatBranch (chatSingle o flags text cid) == some Branch.notFound) = false := by
  obtain ⟨loc, hmem, hc⟩ := h
  unfold chatSingle
  split
  next hfind =>
    exfalso
    have hnone := List.find?_eq_none.mp hfind loc hmem
    simp only [hc, decide_eq_true_eq] at hnone
    exact hnone trivial
  next obj hfind =>
    split
    next => rfl
    next d ds hfc => rfl

/-- Claim C9: since the directory endpoint answers the same listing in
`extract_city` and in the handler's own fetch (one `Oracle.dir` per
request), a resolved city always matches a directory entry by exact
lowercased name, so the location-not-found branch (the "Não encontrei"
response) is unreachable. -/
theorem chat_not_found_unreachable (ratio : Str → Str → ℚ) (o : Oracle) (mensagem : Str) :
    (chatBranch (chat_htmx ratio o mensagem) == some Branch.notFound) = false := by
  unfold chat_htmx
  split
  · rfl
  · unfold chatDispatch
    split
    · exact chatAll_branch o _ _
    · split
      next hcid => rfl
      next cid hcid =>
        split
        · rfl
        · apply chatSingle_branch
          have hx : extract_city ratio o.dir (pyStrip mensagem) = some cid := hcid
          exact extract_city_mem _ _ _ _ hx
